import Mathlib

/-!
# Verification of the PodcastAutomation audio assembler

Shallow embedding of `src/assembler/audio_assembler.py` (class `AudioAssembler`)
and of the exception taxonomy in `src/utils/exceptions.py`.

Modelling choices:

* Audio samples are real numbers; a buffer is a `List ℝ`.  The source computes
  with IEEE doubles; every sample-count computation the theorems depend on
  (`int(24000 * d)` for `d ∈ {0.5, 0.7, 1.0, 1.5}`) is exact in double
  precision (`12000.0`, `16800.0`, `24000.0`, `36000.0`), so exact rational
  arithmetic agrees with the float arithmetic of the source at every call site.
* Fallible steps return `Except PyErr`; a `PyErr` is the raised exception's
  class together with its message.
* `soundfile.read`, `librosa.load`, `librosa.resample`, `np.mean` channel
  folding and `soundfile.write` are third-party library calls (the spec treats
  them as external collaborators); each is modelled by its outcome: the mono
  24 kHz buffer it yields, or the exception it raises.
-/

set_option maxRecDepth 4000

noncomputable section

/-- The exception classes of `src/utils/exceptions.py` (six classes) plus
Python's builtin `ValueError`, which `assemble` raises when a directory scan
finds no WAV files (line 42) and which numpy raises on an in-place broadcast
shape mismatch. -/
inductive ExcKind where
  | podcastGenerationError
  | configurationError
  | contentGenerationError
  | translationError
  | audioGenerationError
  | audioAssemblyError
  | valueError
  deriving DecidableEq

/-- A raised Python exception: its class and its message. -/
structure PyErr where
  kind : ExcKind
  msg : String
  deriving DecidableEq

/-- `self.sample_rate = 24000` (audio_assembler.py, line 26; fixed). -/
def sample_rate : ℕ := 24000

/-- `int(self.sample_rate * duration_seconds)` for the nonnegative durations
used by the assembler.  Python's `int()` truncates toward zero; all durations
are nonnegative, so `Int.floor` is faithful.  The double-precision products at
the source's call sites are exact (see the file docstring). -/
def duration_samples (duration_seconds : ℚ) : ℕ :=
  (⌊(sample_rate : ℚ) * duration_seconds⌋).toNat

/-- `AudioAssembler._create_silence` (lines 116-118):
`np.zeros(int(self.sample_rate * duration_seconds))`. -/
def create_silence (duration_seconds : ℚ) : List ℝ :=
  List.replicate (duration_samples duration_seconds) 0

/-- `fade_length = int(self.sample_rate * duration_seconds)` with the default
`duration_seconds = 0.5` used at both fade call sites (lines 122, 130). -/
def fade_length : ℕ := duration_samples 0.5

/-- `np.linspace(0, 1, n)`: entry `i` is `i / (n - 1)`; for `n = 1` numpy
yields `[0.0]`, matched here because real division by zero is zero. -/
def linspace01 (n : ℕ) : List ℝ :=
  (List.range n).map fun (i : ℕ) => (i : ℝ) / ((n : ℝ) - 1)

/-- `np.linspace(1, 0, n)`: entry `i` is `1 - i / (n - 1)`. -/
def linspace10 (n : ℕ) : List ℝ :=
  (List.range n).map fun (i : ℕ) => 1 - (i : ℝ) / ((n : ℝ) - 1)

/-- The numpy `ValueError` raised when an in-place slice assignment receives an
operand whose shape does not match the slice. -/
def broadcast_err : PyErr :=
  ⟨.valueError, "operands could not be broadcast together"⟩

/-- `AudioAssembler._fade_in` (lines 120-126), value semantics: copy the clip
and multiply its first `fade_length` samples elementwise by
`np.linspace(0, 1, fade_length)`.  `audio_copy[:fade_length] *= fade` is an
in-place numpy operation: when the clip is shorter than `fade_length` the
slice's shape differs from the envelope's and numpy raises a broadcast
`ValueError`. -/
def fade_in (audio : List ℝ) : Except PyErr (List ℝ) :=
  if audio.length < fade_length then .error broadcast_err
  else .ok (List.zipWith (· * ·) (audio.take fade_length) (linspace01 fade_length)
    ++ audio.drop fade_length)

/-- `AudioAssembler._fade_out` (lines 128-134): multiply the last `fade_length`
samples (`audio_copy[-fade_length:]`) by `np.linspace(1, 0, fade_length)`;
same broadcast failure for clips shorter than the envelope. -/
def fade_out (audio : List ℝ) : Except PyErr (List ℝ) :=
  if audio.length < fade_length then .error broadcast_err
  else .ok (audio.take (audio.length - fade_length)
    ++ List.zipWith (· * ·) (audio.drop (audio.length - fade_length)) (linspace10 fade_length))

/-- `10 ** (db_change / 20)` (line 142): decibels to linear amplitude factor. -/
def db_factor (db_change : ℚ) : ℝ := (10 : ℝ) ^ ((db_change : ℝ) / 20)

/-- `AudioAssembler._adjust_volume` (lines 136-143): an explicit early return
(`if db_change == 0: return audio`) leaves the buffer untouched for 0 dB;
otherwise every sample is scaled by `db_factor`. -/
def adjust_volume (audio : List ℝ) (db_change : ℚ) : List ℝ :=
  if db_change = 0 then audio
  else audio.map fun x => x * db_factor db_change

/-- Which branch of `_adjust_volume` runs: `false` is the `db_change == 0`
early return (lines 138-139), `true` the multiply path (lines 141-143).
This mirrors the function's branch condition exactly. -/
def adjust_volume_multiplies (db_change : ℚ) : Bool :=
  if db_change = 0 then false else true

/-- The `if <setting> is not None:` guards around every `_adjust_volume` call
(lines 63-66 and 81-82): an unset gain never invokes the adjustment. -/
def gain_stage (setting : Option ℚ) (audio : List ℝ) : List ℝ :=
  match setting with
  | none => audio
  | some db => adjust_volume audio db

/-- `samples_15s = 15 * self.sample_rate` (line 58). -/
def samples_15s : ℕ := 15 * sample_rate

/-- Line 59: `music_audio[:samples_15s] if len(music_audio) >= samples_15s
else music_audio`. -/
def head_excerpt (music : List ℝ) : List ℝ :=
  if samples_15s ≤ music.length then music.take samples_15s else music

/-- Line 60: `music_audio[-samples_15s:] if len(music_audio) >= samples_15s
else music_audio`. -/
def tail_excerpt (music : List ℝ) : List ℝ :=
  if samples_15s ≤ music.length then music.drop (music.length - samples_15s) else music

/-- One input segment: its file name (used for ordering and for silence
selection) and the outcome of reading it — the mono 24 kHz buffer produced by
`sf.read` / resampling / channel folding (lines 72-78), or the exception that
stage raises. -/
structure SegFile where
  name : String
  read : Except PyErr (List ℝ)

/-- Python's `sub in s` substring test for strings. -/
def strContains (s sub : String) : Bool :=
  s.data.tails.any fun t => sub.data.isPrefixOf t

/-- Lines 93-99: the silence appended after a non-final segment, selected by
substring tags of the file name; `_topic` is checked before `_speaker`. -/
def silence_for (name : String) : List ℝ :=
  if strContains name "_topic" then create_silence 1.5
  else if strContains name "_speaker" then create_silence 0.7
  else create_silence 1.0

/-- Lines 85-88: fade selection by position.  The `elif` gives the very first
segment a fade-in only, even when it is also the last. -/
def fade_stage (i n : ℕ) (audio : List ℝ) : Except PyErr (List ℝ) :=
  if i = 0 then fade_in audio
  else if i = n - 1 then fade_out audio
  else .ok audio

/-- The slice of `PodcastConfig` the assembler reads (lines 22-32): the audio
directory (used by the scan and its error message) and the four nullable dB
gains.  `bg_content_volume` is stored but never applied (line 31). -/
structure AudioCfg where
  audio_dir : String
  vocal_volume : Option ℚ
  bg_intro_volume : Option ℚ
  bg_content_volume : Option ℚ
  bg_outro_volume : Option ℚ

/-- The three forms of the `audio_files` argument (lines 38-45): `None`
(directory scan), a dict (its values sorted by file name), or an explicit
ordered list. -/
inductive SegInput where
  | scan : SegInput
  | mapping : List SegFile → SegInput
  | fromList : List SegFile → SegInput

/-- Insertion into a name-sorted list.  Python's `sorted` is stable; inserting
after all strictly-smaller names and before the first strictly-larger one
preserves the relative order of equal names. -/
def insert_by_name (f : SegFile) : List SegFile → List SegFile
  | [] => [f]
  | g :: t => if g.name < f.name then g :: insert_by_name f t else f :: g :: t

/-- `sorted(...)` by file name (lines 40 and 45). -/
def sort_by_name : List SegFile → List SegFile
  | [] => []
  | f :: t => insert_by_name f (sort_by_name t)

/-- Lines 38-45: resolve the segment list.  `dirFiles` models what
`self.audio_dir.glob('*.wav')` returns; an empty scan raises
`ValueError(f"No WAV files found in {self.audio_dir}")` (line 42). -/
def resolve_segments (audio_dir : String) (input : SegInput)
    (dirFiles : List SegFile) : Except PyErr (List SegFile) :=
  match input with
  | .scan =>
    match sort_by_name dirFiles with
    | [] => .error ⟨.valueError, "No WAV files found in " ++ audio_dir⟩
    | f :: fs => .ok (f :: fs)
  | .mapping fs => .ok (sort_by_name fs)
  | .fromList fs => .ok fs

/-- Lines 71-88 for a single segment at index `i` of `n`: read the file
(fallible), apply the vocal gain if set, then the positional fade. -/
def process_segment (cfg : AudioCfg) (i n : ℕ) (f : SegFile) :
    Except PyErr (List ℝ) :=
  f.read >>= fun audio => fade_stage i n (gain_stage cfg.vocal_volume audio)

/-- The segment loop (lines 71-99): each processed segment is appended,
followed — for every index other than `n - 1` (line 93) — by the silence
selected from the segment's file name. -/
def assemble_loop (cfg : AudioCfg) (n : ℕ) : ℕ → List SegFile → Except PyErr (List (List ℝ))
  | _, [] => .ok []
  | i, f :: rest =>
    process_segment cfg i n f >>= fun a =>
      assemble_loop cfg n (i + 1) rest >>= fun t =>
        if i = n - 1 then pure (a :: t) else pure (a :: silence_for f.name :: t)

/-- The `try:` body of `assemble` (lines 38-110).  `musicLoad` is the outcome
of `librosa.load` (line 55) and `writeRes` the outcome of `sf.write`
(line 104).  The observable result is the concatenated `final_podcast` buffer
(line 103): gain-adjusted head excerpt, the loop's segments and silences, then
the gain-adjusted tail excerpt.  The excerpt gain stages are pure, so binding
them before the loop (as the source computes them) is value-preserving. -/
def assemble_body (cfg : AudioCfg) (musicLoad : Except PyErr (List ℝ))
    (input : SegInput) (dirFiles : List SegFile)
    (writeRes : Except PyErr Unit) : Except PyErr (List ℝ) :=
  resolve_segments cfg.audio_dir input dirFiles >>= fun files =>
    musicLoad >>= fun music =>
      assemble_loop cfg files.length 0 files >>= fun segs =>
        writeRes >>= fun _ =>
          pure ((gain_stage cfg.bg_intro_volume (head_excerpt music) :: segs
            ++ [gain_stage cfg.bg_outro_volume (tail_excerpt music)]).flatten)

/-- `AudioAssembler.assemble` (lines 34-114): the `except Exception` handler
(lines 112-114) re-raises every failure as
`AudioAssemblyError(f"Podcast assembly failed: {e}")`. -/
def assemble (cfg : AudioCfg) (musicLoad : Except PyErr (List ℝ))
    (input : SegInput) (dirFiles : List SegFile)
    (writeRes : Except PyErr Unit) : Except PyErr (List ℝ) :=
  match assemble_body cfg musicLoad input dirFiles writeRes with
  | .ok out => .ok out
  | .error e => .error ⟨.audioAssemblyError, "Podcast assembly failed: " ++ e.msg⟩

/-- Array store used to state the mutation contract: numpy arrays addressed by
index, making object identity and in-place writes explicit. -/
abbrev Heap := List (List ℝ)

/-- Dereference an array. -/
def Heap.read (h : Heap) (r : ℕ) : List ℝ := h.getD r []

/-- `audio.copy()` (lines 124 and 132): allocate a fresh array holding the same
samples; returns the new store and the fresh reference. -/
def Heap.allocCopy (h : Heap) (r : ℕ) : Heap × ℕ := (h ++ [h.read r], h.length)

/-- `_fade_in` with the array store explicit: `audio_copy = audio.copy()`, then
the in-place `audio_copy[:fade_length] *= fade` writes only the fresh slot;
the copy is returned. -/
def fade_in_heap (h : Heap) (r : ℕ) : Except PyErr (Heap × ℕ) :=
  let hc := Heap.allocCopy h r
  let buf := hc.1.read hc.2
  if buf.length < fade_length then .error broadcast_err
  else .ok (hc.1.set hc.2
    (List.zipWith (· * ·) (buf.take fade_length) (linspace01 fade_length)
      ++ buf.drop fade_length), hc.2)

/-- `_fade_out` with the array store explicit (lines 128-134). -/
def fade_out_heap (h : Heap) (r : ℕ) : Except PyErr (Heap × ℕ) :=
  let hc := Heap.allocCopy h r
  let buf := hc.1.read hc.2
  if buf.length < fade_length then .error broadcast_err
  else .ok (hc.1.set hc.2
    (buf.take (buf.length - fade_length)
      ++ List.zipWith (· * ·) (buf.drop (buf.length - fade_length)) (linspace10 fade_length)), hc.2)

/-- The silence length the spec prescribes, stated in the spec's own words:
`round(duration_seconds * sample_rate)` where `duration_seconds` is 1.5 for a
name containing `_topic`, 0.7 for `_speaker`, 1.0 otherwise.  Reference
definition for the refinement comparison with `silence_for`. -/
def spec_silence_len (name : String) : ℕ :=
  (round ((if strContains name "_topic" then (1.5 : ℚ)
    else if strContains name "_speaker" then 0.7 else 1.0) * 24000)).toNat

/-- Configuration of the spec's concrete scenario: no gains set. -/
def cfg_none : AudioCfg := ⟨"out", none, none, none, none⟩

/-- A one-second silent clip at the fixed rate. -/
def one_sec_zeros : List ℝ := List.replicate sample_rate 0

/-- Scenario segment `a_topic.wav` (1 s of silence, already at 24 kHz). -/
def seg_a : SegFile := ⟨"a_topic.wav", .ok one_sec_zeros⟩

/-- Scenario segment `b_speaker.wav`. -/
def seg_b : SegFile := ⟨"b_speaker.wav", .ok one_sec_zeros⟩

/-- Scenario segment `c.wav`. -/
def seg_c : SegFile := ⟨"c.wav", .ok one_sec_zeros⟩

/-- The scenario's 20-second music asset. -/
def music_20s : List ℝ := List.replicate (20 * sample_rate) 0

/-- A clip exactly as long as the fade window, used by concrete witnesses. -/
def w_clip : List ℝ := List.replicate 12000 0

/-- A concrete `_speaker`-tagged middle segment used by a witness. -/
def wseg : SegFile := ⟨"b_speaker.wav", .ok (List.replicate 5 0)⟩

/-! ## Helper lemmas -/

theorem except_bind_ok {ε α β : Type} (a : α) (f : α → Except ε β) :
    (Except.ok a >>= f) = f a := rfl

theorem except_bind_err {ε α β : Type} (e : ε) (f : α → Except ε β) :
    ((Except.error e : Except ε α) >>= f) = .error e := rfl

theorem duration_samples_half : duration_samples 0.5 = 12000 := by
  norm_num [duration_samples, sample_rate]; rfl

theorem duration_samples_topic : duration_samples 1.5 = 36000 := by
  norm_num [duration_samples, sample_rate]; rfl

theorem duration_samples_speaker : duration_samples 0.7 = 16800 := by
  norm_num [duration_samples, sample_rate]; rfl

theorem duration_samples_plain : duration_samples 1.0 = 24000 := by
  norm_num [duration_samples, sample_rate]; rfl

theorem fade_length_eq : fade_length = 12000 := duration_samples_half

theorem linspace01_length (n : ℕ) : (linspace01 n).length = n := by
  unfold linspace01
  rw [List.length_map, List.length_range]

theorem linspace10_length (n : ℕ) : (linspace10 n).length = n := by
  unfold linspace10
  rw [List.length_map, List.length_range]

theorem zipWith_zero_left : ∀ (n : ℕ) (l : List ℝ),
    List.zipWith (· * ·) (List.replicate n (0 : ℝ)) l = List.replicate (min n l.length) 0
  | 0, _ => by simp
  | n + 1, [] => by simp
  | n + 1, x :: t => by
    simp only [List.replicate_succ, List.zipWith_cons_cons, zipWith_zero_left n t,
      List.length_cons, Nat.succ_min_succ, zero_mul]

theorem fade_in_zeros {n : ℕ} (h : fade_length ≤ n) :
    fade_in (List.replicate n (0 : ℝ)) = .ok (List.replicate n 0) := by
  unfold fade_in
  rw [if_neg (by simp; omega)]
  rw [List.take_replicate, List.drop_replicate, zipWith_zero_left, linspace01_length,
    min_eq_left h, min_self, ← List.replicate_add]
  congr 2
  omega

theorem fade_out_zeros {n : ℕ} (h : fade_length ≤ n) :
    fade_out (List.replicate n (0 : ℝ)) = .ok (List.replicate n 0) := by
  unfold fade_out
  rw [if_neg (by simp; omega)]
  rw [List.length_replicate, List.take_replicate, List.drop_replicate, zipWith_zero_left,
    linspace10_length, min_eq_left (Nat.sub_le _ _),
    show n - (n - fade_length) = fade_length by omega, min_self, ← List.replicate_add]
  congr 2
  omega

theorem strContains_a_topic : strContains "a_topic.wav" "_topic" = true := by decide

theorem strContains_b_topic : strContains "b_speaker.wav" "_topic" = false := by decide

theorem strContains_b_speaker : strContains "b_speaker.wav" "_speaker" = true := by decide

theorem strContains_c_topic : strContains "c.wav" "_topic" = false := by decide

theorem strContains_c_speaker : strContains "c.wav" "_speaker" = false := by decide

theorem silence_for_a : silence_for "a_topic.wav" = create_silence 1.5 := by
  simp [silence_for, strContains_a_topic]

theorem silence_for_b : silence_for "b_speaker.wav" = create_silence 0.7 := by
  simp [silence_for, strContains_b_topic, strContains_b_speaker]

theorem create_silence_topic : create_silence 1.5 = List.replicate 36000 (0 : ℝ) := by
  rw [create_silence, duration_samples_topic]

theorem create_silence_speaker : create_silence 0.7 = List.replicate 16800 (0 : ℝ) := by
  rw [create_silence, duration_samples_speaker]

theorem create_silence_plain : create_silence 1.0 = List.replicate 24000 (0 : ℝ) := by
  rw [create_silence, duration_samples_plain]

theorem round_matches_topic : (round ((1.5 : ℚ) * 24000)).toNat = duration_samples 1.5 := by
  rw [duration_samples_topic]; norm_num; rfl

theorem round_matches_speaker : (round ((0.7 : ℚ) * 24000)).toNat = duration_samples 0.7 := by
  rw [duration_samples_speaker]; norm_num; rfl

theorem round_matches_plain : (round ((1.0 : ℚ) * 24000)).toNat = duration_samples 1.0 := by
  rw [duration_samples_plain]; norm_num; rfl

/-- The code's truncating `int(rate * d)` agrees with the spec's
`round(d * rate)` at every duration the assembler uses. -/
theorem silence_spec_refines (name : String) :
    silence_for name = List.replicate (spec_silence_len name) (0 : ℝ) := by
  unfold silence_for spec_silence_len create_silence
  cases h1 : strContains name "_topic" <;> cases h2 : strContains name "_speaker" <;>
    simp only [h1, h2, if_true, if_false, Bool.false_eq_true, Bool.true_eq_false,
      round_matches_topic, round_matches_speaker, round_matches_plain]

theorem adjust_volume_length (audio : List ℝ) (db : ℚ) :
    (adjust_volume audio db).length = audio.length := by
  unfold adjust_volume
  split <;> simp

theorem gain_stage_length (v : Option ℚ) (audio : List ℝ) :
    (gain_stage v audio).length = audio.length := by
  cases v <;> simp [gain_stage, adjust_volume_length]

theorem fade_in_short {audio : List ℝ} (h : audio.length < fade_length) :
    fade_in audio = .error broadcast_err := by
  unfold fade_in
  rw [if_pos h]

theorem fade_out_short {audio : List ℝ} (h : audio.length < fade_length) :
    fade_out audio = .error broadcast_err := by
  unfold fade_out
  rw [if_pos h]

theorem assemble_of_body_error {cfg : AudioCfg} {musicLoad : Except PyErr (List ℝ)}
    {input : SegInput} {dirFiles : List SegFile} {writeRes : Except PyErr Unit} {e : PyErr}
    (h : assemble_body cfg musicLoad input dirFiles writeRes = .error e) :
    assemble cfg musicLoad input dirFiles writeRes =
      .error ⟨.audioAssemblyError, "Podcast assembly failed: " ++ e.msg⟩ := by
  unfold assemble
  rw [h]

theorem assemble_of_body_ok {cfg : AudioCfg} {musicLoad : Except PyErr (List ℝ)}
    {input : SegInput} {dirFiles : List SegFile} {writeRes : Except PyErr Unit} {out : List ℝ}
    (h : assemble_body cfg musicLoad input dirFiles writeRes = .ok out) :
    assemble cfg musicLoad input dirFiles writeRes = .ok out := by
  unfold assemble
  rw [h]

/-- A first-or-last segment whose clip is shorter than the fade window makes
`process_segment` raise numpy's broadcast error. -/
theorem process_segment_short {audio : List ℝ} (h : audio.length < fade_length)
    (cfg : AudioCfg) (i n : ℕ) (name : String) (hi : i = 0 ∨ i = n - 1) :
    process_segment cfg i n ⟨name, .ok audio⟩ = .error broadcast_err := by
  unfold process_segment
  show (Except.ok audio >>= fun audio => fade_stage i n (gain_stage cfg.vocal_volume audio))
    = .error broadcast_err
  rw [except_bind_ok]
  have hlen : (gain_stage cfg.vocal_volume audio).length < fade_length := by
    rw [gain_stage_length]; exact h
  unfold fade_stage
  by_cases h0 : i = 0
  · rw [if_pos h0, fade_in_short hlen]
  · rw [if_neg h0, if_pos (hi.resolve_left h0), fade_out_short hlen]

theorem assemble_loop_nil (cfg : AudioCfg) (n i : ℕ) :
    assemble_loop cfg n i [] = .ok [] := rfl

theorem assemble_loop_cons (cfg : AudioCfg) (n i : ℕ) (f : SegFile) (rest : List SegFile) :
    assemble_loop cfg n i (f :: rest) =
      process_segment cfg i n f >>= fun a =>
        assemble_loop cfg n (i + 1) rest >>= fun t =>
          if i = n - 1 then pure (a :: t) else pure (a :: silence_for f.name :: t) := rfl

/-- One evaluated step of the segment loop. -/
theorem loop_step (cfg : AudioCfg) (n i : ℕ) (f : SegFile) (rest : List SegFile)
    (a : List ℝ) (t : List (List ℝ))
    (ha : process_segment cfg i n f = .ok a)
    (ht : assemble_loop cfg n (i + 1) rest = .ok t) :
    assemble_loop cfg n i (f :: rest) =
      .ok (a :: (if i = n - 1 then t else silence_for f.name :: t)) := by
  rw [assemble_loop_cons]
  simp only [ha, ht, except_bind_ok]
  by_cases hi : i = n - 1
  · rw [if_pos hi, if_pos hi]
    rfl
  · rw [if_neg hi, if_neg hi]
    rfl

/-- If the final segment's clip is shorter than the fade window, the loop can
only fail (either at an earlier segment or at the final fade-out). -/
theorem loop_last_short {audio : List ℝ} (hshort : audio.length < fade_length)
    (cfg : AudioCfg) (n : ℕ) (name : String) :
    ∀ (earlier : List SegFile) (i : ℕ),
      i + (earlier ++ [(⟨name, .ok audio⟩ : SegFile)]).length = n →
      ∃ e, assemble_loop cfg n i (earlier ++ [(⟨name, .ok audio⟩ : SegFile)]) = .error e := by
  intro earlier
  induction earlier with
  | nil =>
    intro i hi
    refine ⟨broadcast_err, ?_⟩
    rw [List.nil_append, assemble_loop_cons,
      process_segment_short hshort cfg i n name (Or.inr (by simp at hi; omega)),
      except_bind_err]
  | cons g gs ih =>
    intro i hi
    rw [List.cons_append, assemble_loop_cons]
    cases hp : process_segment cfg i n g with
    | error e => exact ⟨e, by rw [except_bind_err]⟩
    | ok a =>
      obtain ⟨e, he⟩ := ih (i + 1) (by simp only [List.length_append, List.length_cons] at hi ⊢; omega)
      exact ⟨e, by rw [except_bind_ok, he, except_bind_err]⟩

/-- Claim C10: a buffer shorter than `0.5 * 24000 = 12000` samples makes
`_fade_in` and `_fade_out` raise numpy's broadcast (shape-mismatch)
`ValueError` instead of fading the available prefix/suffix, so an `assemble`
call whose first or last segment is shorter than 0.5 s fails — surfacing as
`AudioAssemblyError` — rather than producing output. -/
theorem short_clip_fade_fails (audio : List ℝ) (hshort : audio.length < 12000) :
    fade_in audio = .error broadcast_err ∧
    fade_out audio = .error broadcast_err ∧
    (∀ (cfg : AudioCfg) (musicLoad : Except PyErr (List ℝ)) (dirFiles : List SegFile)
        (writeRes : Except PyErr Unit) (name : String) (rest : List SegFile),
      ∃ msg : String,
        assemble cfg musicLoad (.fromList ((⟨name, .ok audio⟩ : SegFile) :: rest)) dirFiles writeRes =
          .error ⟨.audioAssemblyError, msg⟩) ∧
    (∀ (cfg : AudioCfg) (musicLoad : Except PyErr (List ℝ)) (dirFiles : List SegFile)
        (writeRes : Except PyErr Unit) (name : String) (earlier : List SegFile),
      ∃ msg : String,
        assemble cfg musicLoad (.fromList (earlier ++ [(⟨name, .ok audio⟩ : SegFile)])) dirFiles writeRes =
          .error ⟨.audioAssemblyError, msg⟩) := by
  have hs : audio.length < fade_length := by rw [fade_length_eq]; exact hshort
  refine ⟨fade_in_short hs, fade_out_short hs, ?_, ?_⟩
  · intro cfg musicLoad dirFiles writeRes name rest
    cases musicLoad with
    | error e =>
      exact ⟨"Podcast assembly failed: " ++ e.msg,
        assemble_of_body_error (by rw [assemble_body, resolve_segments, except_bind_ok, except_bind_err])⟩
    | ok music =>
      refine ⟨"Podcast assembly failed: " ++ broadcast_err.msg, assemble_of_body_error ?_⟩
      rw [assemble_body, resolve_segments, except_bind_ok, except_bind_ok, assemble_loop_cons,
        process_segment_short hs cfg 0 _ name (Or.inl rfl), except_bind_err, except_bind_err]
  · intro cfg musicLoad dirFiles writeRes name earlier
    cases musicLoad with
    | error e =>
      exact ⟨"Podcast assembly failed: " ++ e.msg,
        assemble_of_body_error (by rw [assemble_body, resolve_segments, except_bind_ok, except_bind_err])⟩
    | ok music =>
      obtain ⟨e, he⟩ :=
        loop_last_short hs cfg (earlier ++ [(⟨name, .ok audio⟩ : SegFile)]).length name earlier 0
          (by omega)
      refine ⟨"Podcast assembly failed: " ++ e.msg, assemble_of_body_error ?_⟩
      rw [assemble_body, resolve_segments, except_bind_ok, except_bind_ok, he, except_bind_err]

/-- Claim C10, witness: an empty first (and only) segment clip makes the
concrete `assemble` call fail as `AudioAssemblyError`. -/
theorem short_clip_fade_fails_witness :
    fade_in ([] : List ℝ) = .error broadcast_err ∧
    ∃ msg : String,
      assemble cfg_none (.ok []) (.fromList [⟨"s.wav", .ok ([] : List ℝ)⟩]) [] (.ok ()) =
        .error ⟨.audioAssemblyError, msg⟩ :=
  ⟨(short_clip_fade_fails [] (by simp)).1,
    (short_clip_fade_fails [] (by simp)).2.2.1 cfg_none (.ok []) [] (.ok ()) "s.wav" []⟩

/-- Claim C6: every failure inside an `assemble` call is caught by the
top-level handler and reaches the caller as a single `AudioAssemblyError`
whose message carries the original cause; no other exception type escapes. -/
theorem assemble_errors_wrapped (cfg : AudioCfg) (musicLoad : Except PyErr (List ℝ))
    (input : SegInput) (dirFiles : List SegFile) (writeRes : Except PyErr Unit)
    (e : PyErr) (h : assemble cfg musicLoad input dirFiles writeRes = .error e) :
    e.kind = .audioAssemblyError ∧
    ∃ cause : PyErr,
      assemble_body cfg musicLoad input dirFiles writeRes = .error cause ∧
      e.msg = "Podcast assembly failed: " ++ cause.msg := by
  unfold assemble at h
  cases hb : assemble_body cfg musicLoad input dirFiles writeRes with
  | ok out => rw [hb] at h; cases h
  | error e0 =>
    rw [hb] at h
    injection h with h1
    subst h1
    exact ⟨rfl, e0, rfl, rfl⟩

/-- Claim C6, witness: a concrete failing call (empty directory scan) whose
error is the wrapped `AudioAssemblyError`. -/
theorem assemble_errors_wrapped_witness :
    ∃ e : PyErr, assemble cfg_none (.ok []) .scan [] (.ok ()) = .error e ∧
      e.kind = .audioAssemblyError := by
  refine ⟨⟨.audioAssemblyError,
    "Podcast assembly failed: " ++ ("No WAV files found in " ++ "out")⟩, rfl, ?_⟩
  exact (assemble_errors_wrapped cfg_none (.ok []) .scan [] (.ok ()) _ rfl).1

/-- Claim C3, counterexample: with no explicit segments and an empty scan, the
error that reaches the caller is `AudioAssemblyError` (wrapping the internal
`ValueError`), not a dedicated `InputError` — `src/utils/exceptions.py`
defines no such type. -/
theorem empty_scan_error_is_assembly_error :
    assemble cfg_none (.ok []) .scan [] (.ok ()) =
      .error ⟨.audioAssemblyError,
        "Podcast assembly failed: " ++ ("No WAV files found in " ++ "out")⟩ := rfl

/-- Claim C3 (amended): when `assemble` is called with no explicit segments
and the working-directory scan finds no eligible audio files, it raises an
internal `ValueError` which the top-level handler wraps, so the failure
reaches the caller as `AudioAssemblyError` — the taxonomy has no `InputError`
type. -/
theorem empty_scan_wrapped_as_assembly_error (cfg : AudioCfg)
    (musicLoad : Except PyErr (List ℝ)) (writeRes : Except PyErr Unit) :
    assemble cfg musicLoad .scan [] writeRes =
      .error ⟨.audioAssemblyError,
        "Podcast assembly failed: " ++ ("No WAV files found in " ++ cfg.audio_dir)⟩ := rfl

/-- Claim C9: `assemble` is deterministic — two calls with equal segment
inputs, equal music content, equal configuration (and equal filesystem
outcomes) produce identical output buffers. -/
theorem assemble_deterministic (cfg₁ cfg₂ : AudioCfg)
    (m₁ m₂ : Except PyErr (List ℝ)) (in₁ in₂ : SegInput)
    (d₁ d₂ : List SegFile) (w₁ w₂ : Except PyErr Unit)
    (hc : cfg₁ = cfg₂) (hm : m₁ = m₂) (hi : in₁ = in₂) (hd : d₁ = d₂) (hw : w₁ = w₂) :
    assemble cfg₁ m₁ in₁ d₁ w₁ = assemble cfg₂ m₂ in₂ d₂ w₂ := by
  subst hc hm hi hd hw
  rfl

/-- Claim C9, witness: the determinism theorem applied at a concrete call. -/
theorem assemble_deterministic_witness :
    assemble cfg_none (.ok []) .scan [] (.ok ()) =
      assemble cfg_none (.ok []) .scan [] (.ok ()) :=
  assemble_deterministic cfg_none cfg_none (.ok []) (.ok []) .scan .scan [] [] (.ok ()) (.ok ())
    rfl rfl rfl rfl rfl

/-- Claim C4, counterexample: a 0 dB gain does not exercise the multiply path —
`_adjust_volume` returns the buffer through its explicit early-return branch. -/
theorem zero_db_skips_multiply_path : adjust_volume_multiplies 0 = false := rfl

/-- Claim C4 (amended): the gain conversion is `10^(db/20)` and a 0 dB factor
is 1, but `_adjust_volume` returns the buffer unchanged through an explicit
early return for 0 dB — the multiply path runs only for nonzero settings —
while a `None` setting never invokes the adjustment at all; both leave the
samples identical to the input. -/
theorem gain_semantics :
    (∀ audio : List ℝ, adjust_volume audio 0 = audio) ∧
    adjust_volume_multiplies 0 = false ∧
    (∀ audio : List ℝ, gain_stage none audio = audio) ∧
    db_factor 0 = 1 ∧
    (∀ db : ℚ, db ≠ 0 →
      adjust_volume_multiplies db = true ∧
      ∀ audio : List ℝ, adjust_volume audio db = audio.map fun x => x * db_factor db) := by
  refine ⟨fun audio => by simp [adjust_volume], rfl, fun audio => rfl, ?_, ?_⟩
  · simp [db_factor]
  · intro db hdb
    exact ⟨by simp [adjust_volume_multiplies, hdb], fun audio => by simp [adjust_volume, hdb]⟩

/-- Claim C4, witness: the amended theorem evaluated at 0 dB and at 1 dB. -/
theorem gain_semantics_witness :
    adjust_volume [(2 : ℝ)] 0 = [(2 : ℝ)] ∧ adjust_volume_multiplies 1 = true :=
  ⟨gain_semantics.1 [(2 : ℝ)], (gain_semantics.2.2.2.2 1 (by norm_num)).1⟩

/-- Claim C8: a music track shorter than 15 s (`15 * 24000` samples) yields
head and tail excerpts each equal to the whole track; a track of at least
15 s yields exactly the first and the last `15 * 24000` samples. -/
theorem music_excerpts (music : List ℝ) :
    (music.length < 15 * 24000 →
      head_excerpt music = music ∧ tail_excerpt music = music) ∧
    (15 * 24000 ≤ music.length →
      head_excerpt music = music.take (15 * 24000) ∧
      (head_excerpt music).length = 15 * 24000 ∧
      tail_excerpt music = music.drop (music.length - 15 * 24000) ∧
      (tail_excerpt music).length = 15 * 24000) := by
  have hs : samples_15s = 15 * 24000 := by norm_num [samples_15s, sample_rate]
  constructor
  · intro h
    constructor
    · unfold head_excerpt; rw [hs, if_neg (by omega)]
    · unfold tail_excerpt; rw [hs, if_neg (by omega)]
  · intro h
    have h1 : head_excerpt music = music.take (15 * 24000) := by
      unfold head_excerpt; rw [hs, if_pos h]
    have h2 : tail_excerpt music = music.drop (music.length - 15 * 24000) := by
      unfold tail_excerpt; rw [hs, if_pos h]
    refine ⟨h1, ?_, h2, ?_⟩
    · rw [h1, List.length_take]; omega
    · rw [h2, List.length_drop]; omega

/-- Claim C8, witness: a two-sample track is shorter than 15 s, so both
excerpts are the track itself. -/
theorem music_excerpts_witness :
    head_excerpt [(1 : ℝ), 2] = [(1 : ℝ), 2] ∧ tail_excerpt [(1 : ℝ), 2] = [(1 : ℝ), 2] :=
  (music_excerpts [(1 : ℝ), 2]).1 (by simp)

/-- Claim C5: a successful fade-in alters only the first `0.5 * 24000 = 12000`
samples of a clip and a successful fade-out only the last 12000 — lengths are
preserved and all samples outside the fade window are unchanged — and the
positional dispatch gives a single segment (`i = 0`, `n = 1`) the fade-in
only, never the fade-out. -/
theorem fade_region (audio fa fo : List ℝ)
    (hin : fade_in audio = .ok fa) (hout : fade_out audio = .ok fo) :
    fa.length = audio.length ∧
    fo.length = audio.length ∧
    fa.drop 12000 = audio.drop 12000 ∧
    fo.take (audio.length - 12000) = audio.take (audio.length - 12000) ∧
    (∀ clip : List ℝ, fade_stage 0 1 clip = fade_in clip) := by
  unfold fade_in at hin
  unfold fade_out at hout
  rw [fade_length_eq] at hin hout
  by_cases h : audio.length < 12000
  · rw [if_pos h] at hin; cases hin
  · rw [if_neg h] at hin
    rw [if_neg h] at hout
    injection hin with hin
    injection hout with hout
    subst hin hout
    push_neg at h
    have hz : (List.zipWith (· * ·) (audio.take 12000) (linspace01 12000)).length = 12000 := by
      rw [List.length_zipWith, List.length_take, linspace01_length]; omega
    have ht : (audio.take (audio.length - 12000)).length = audio.length - 12000 := by
      rw [List.length_take]; omega
    refine ⟨?_, ?_, List.drop_left' hz, List.take_left' ht,
      fun clip => by unfold fade_stage; rw [if_pos rfl]⟩
    · rw [List.length_append, hz, List.length_drop]; omega
    · rw [List.length_append, ht, List.length_zipWith, List.length_drop, linspace10_length]
      omega

/-- Claim C5, witness: the fade-region theorem applied to a concrete
12000-sample clip. -/
theorem fade_region_witness :
    ∃ fa fo : List ℝ, fade_in w_clip = .ok fa ∧ fade_out w_clip = .ok fo ∧
      fa.length = w_clip.length := by
  have h12 : fade_length ≤ 12000 := by rw [fade_length_eq]
  have hfa : fade_in w_clip = .ok w_clip := by unfold w_clip; exact fade_in_zeros h12
  have hfo : fade_out w_clip = .ok w_clip := by unfold w_clip; exact fade_out_zeros h12
  exact ⟨w_clip, w_clip, hfa, hfo, (fade_region w_clip w_clip w_clip hfa hfo).1⟩

theorem heap_read_concat (h : Heap) (b : List ℝ) : Heap.read (h ++ [b]) h.length = b := by
  unfold Heap.read
  rw [List.getD_eq_getElem?_getD, List.getElem?_concat_length]
  rfl

theorem heap_read_oob (h : Heap) (r : ℕ) (hr : h.length ≤ r) : Heap.read h r = [] :=
  List.getD_eq_default h [] hr

theorem heap_read_set_self (l : Heap) (n : ℕ) (b : List ℝ) (hn : n < l.length) :
    Heap.read (l.set n b) n = b := by
  unfold Heap.read
  rw [List.getD_eq_getElem?_getD, List.getElem?_set_eq_of_lt b hn]
  rfl

theorem heap_read_set_other (l : Heap) (n m : ℕ) (b : List ℝ) (hnm : n ≠ m) :
    Heap.read (l.set n b) m = Heap.read l m := by
  unfold Heap.read
  rw [List.getD_eq_getElem?_getD, List.getD_eq_getElem?_getD, List.getElem?_set_ne hnm]

theorem heap_read_append_lt (h : Heap) (b : List ℝ) (r : ℕ) (hr : r < h.length) :
    Heap.read (h ++ [b]) r = Heap.read h r := by
  unfold Heap.read
  rw [List.getD_eq_getElem?_getD, List.getD_eq_getElem?_getD, List.getElem?_append_left hr]

/-- Claim C7: the fade operations copy and never mutate the caller's buffer —
after a successful `_fade_in`/`_fade_out` the argument array holds exactly its
previous samples, the returned array is a distinct (private) one, and its
contents are the faded clip. -/
theorem fade_no_mutation (h : Heap) (r : ℕ) (out : Heap × ℕ) :
    (fade_in_heap h r = .ok out →
      out.1.read r = h.read r ∧ out.2 ≠ r ∧ fade_in (h.read r) = .ok (out.1.read out.2)) ∧
    (fade_out_heap h r = .ok out →
      out.1.read r = h.read r ∧ out.2 ≠ r ∧ fade_out (h.read r) = .ok (out.1.read out.2)) := by
  constructor
  · intro hok
    unfold fade_in_heap at hok
    simp only [Heap.allocCopy] at hok
    rw [heap_read_concat] at hok
    split at hok
    · cases hok
    · rename_i hge
      injection hok with hok
      subst hok
      rw [not_lt] at hge
      have hrlt : r < h.length := by
        by_contra hr
        push_neg at hr
        rw [heap_read_oob h r hr, fade_length_eq] at hge
        simp at hge
      refine ⟨?_, by dsimp only; omega, ?_⟩
      · dsimp only
        rw [heap_read_set_other _ _ _ _ (by omega), heap_read_append_lt _ _ _ hrlt]
      · dsimp only
        rw [heap_read_set_self _ _ _ (by simp)]
        unfold fade_in
        rw [if_neg (by omega)]
  · intro hok
    unfold fade_out_heap at hok
    simp only [Heap.allocCopy] at hok
    rw [heap_read_concat] at hok
    split at hok
    · cases hok
    · rename_i hge
      injection hok with hok
      subst hok
      rw [not_lt] at hge
      have hrlt : r < h.length := by
        by_contra hr
        push_neg at hr
        rw [heap_read_oob h r hr, fade_length_eq] at hge
        simp at hge
      refine ⟨?_, by dsimp only; omega, ?_⟩
      · dsimp only
        rw [heap_read_set_other _ _ _ _ (by omega), heap_read_append_lt _ _ _ hrlt]
      · dsimp only
        rw [heap_read_set_self _ _ _ (by simp)]
        unfold fade_out
        rw [if_neg (by omega)]

/-- Claim C7, witness: fading a one-array store leaves slot 0 — the caller's
buffer — unchanged and returns the fresh slot 1. -/
theorem fade_no_mutation_witness :
    ∃ out : Heap × ℕ, fade_in_heap [w_clip] 0 = .ok out ∧
      out.1.read 0 = Heap.read [w_clip] 0 ∧ out.2 ≠ 0 := by
  have hlen : ¬ (w_clip.length < fade_length) := by
    unfold w_clip
    rw [List.length_replicate, fade_length_eq]
    omega
  have hok : fade_in_heap [w_clip] 0 = .ok ([w_clip, w_clip], 1) := by
    unfold fade_in_heap
    rw [show Heap.allocCopy [w_clip] 0 = ([w_clip, w_clip], 1) from rfl]
    simp only []
    rw [show Heap.read [w_clip, w_clip] 1 = w_clip from rfl, if_neg hlen]
    rw [fade_length_eq]
    unfold w_clip
    rw [List.take_replicate, List.drop_replicate, zipWith_zero_left, linspace01_length]
    norm_num
  exact ⟨([w_clip, w_clip], 1), hok,
    ((fade_no_mutation [w_clip] 0 ([w_clip, w_clip], 1)).1 hok).1,
    ((fade_no_mutation [w_clip] 0 ([w_clip, w_clip], 1)).1 hok).2.1⟩

theorem fade_in_one_sec : fade_in one_sec_zeros = .ok one_sec_zeros := by
  unfold one_sec_zeros
  exact fade_in_zeros (by rw [fade_length_eq]; norm_num [sample_rate])

theorem fade_out_one_sec : fade_out one_sec_zeros = .ok one_sec_zeros := by
  unfold one_sec_zeros
  exact fade_out_zeros (by rw [fade_length_eq]; norm_num [sample_rate])

theorem process_a : process_segment cfg_none 0 3 seg_a = .ok one_sec_zeros := by
  show (Except.ok one_sec_zeros >>= fun audio =>
    fade_stage 0 3 (gain_stage cfg_none.vocal_volume audio)) = .ok one_sec_zeros
  rw [except_bind_ok]
  show fade_stage 0 3 one_sec_zeros = .ok one_sec_zeros
  unfold fade_stage
  rw [if_pos rfl, fade_in_one_sec]

theorem process_b : process_segment cfg_none 1 3 seg_b = .ok one_sec_zeros := by
  show (Except.ok one_sec_zeros >>= fun audio =>
    fade_stage 1 3 (gain_stage cfg_none.vocal_volume audio)) = .ok one_sec_zeros
  rw [except_bind_ok]
  show fade_stage 1 3 one_sec_zeros = .ok one_sec_zeros
  unfold fade_stage
  rw [if_neg (by omega), if_neg (by omega)]

theorem process_c : process_segment cfg_none 2 3 seg_c = .ok one_sec_zeros := by
  show (Except.ok one_sec_zeros >>= fun audio =>
    fade_stage 2 3 (gain_stage cfg_none.vocal_volume audio)) = .ok one_sec_zeros
  rw [except_bind_ok]
  show fade_stage 2 3 one_sec_zeros = .ok one_sec_zeros
  unfold fade_stage
  rw [if_neg (by omega), if_pos (by omega), fade_out_one_sec]

theorem scenario_loop : assemble_loop cfg_none 3 0 [seg_a, seg_b, seg_c] =
    .ok [one_sec_zeros, create_silence 1.5, one_sec_zeros, create_silence 0.7, one_sec_zeros] := by
  have h2 : assemble_loop cfg_none 3 2 [seg_c] = .ok [one_sec_zeros] := by
    have h := loop_step cfg_none 3 2 seg_c [] _ _ process_c (assemble_loop_nil cfg_none 3 3)
    rw [if_pos (by omega)] at h
    exact h
  have h1 : assemble_loop cfg_none 3 1 [seg_b, seg_c] =
      .ok [one_sec_zeros, create_silence 0.7, one_sec_zeros] := by
    have h := loop_step cfg_none 3 1 seg_b [seg_c] _ _ process_b h2
    rw [if_neg (by omega), show seg_b.name = "b_speaker.wav" from rfl, silence_for_b] at h
    exact h
  have h := loop_step cfg_none 3 0 seg_a [seg_b, seg_c] _ _ process_a h1
  rw [if_neg (by omega), show seg_a.name = "a_topic.wav" from rfl, silence_for_a] at h
  exact h

theorem scenario_resolve : resolve_segments cfg_none.audio_dir (SegInput.fromList [seg_a, seg_b, seg_c]) [] =
    Except.ok [seg_a, seg_b, seg_c] := rfl

theorem scenario_body_def :
    assemble_body cfg_none (.ok music_20s) (.fromList [seg_a, seg_b, seg_c]) [] (.ok ()) =
      (resolve_segments cfg_none.audio_dir (SegInput.fromList [seg_a, seg_b, seg_c]) [] >>= fun files =>
        (Except.ok music_20s : Except PyErr (List ℝ)) >>= fun music =>
          assemble_loop cfg_none files.length 0 files >>= fun segs =>
            (Except.ok () : Except PyErr Unit) >>= fun _ =>
              pure ((gain_stage cfg_none.bg_intro_volume (head_excerpt music) :: segs
                ++ [gain_stage cfg_none.bg_outro_volume (tail_excerpt music)]).flatten)) := by
  unfold assemble_body
  rfl

theorem scenario_body_resolved :
    assemble_body cfg_none (.ok music_20s) (.fromList [seg_a, seg_b, seg_c]) [] (.ok ()) =
      ((Except.ok [seg_a, seg_b, seg_c] : Except PyErr (List SegFile)) >>= fun files =>
        (Except.ok music_20s : Except PyErr (List ℝ)) >>= fun music =>
          assemble_loop cfg_none files.length 0 files >>= fun segs =>
            (Except.ok () : Except PyErr Unit) >>= fun _ =>
              pure ((gain_stage cfg_none.bg_intro_volume (head_excerpt music) :: segs
                ++ [gain_stage cfg_none.bg_outro_volume (tail_excerpt music)]).flatten)) := by
  rw [scenario_body_def, scenario_resolve]

theorem scenario_bind_step :
    ((Except.ok [seg_a, seg_b, seg_c] : Except PyErr (List SegFile)) >>= fun files =>
        (Except.ok music_20s : Except PyErr (List ℝ)) >>= fun music =>
          assemble_loop cfg_none files.length 0 files >>= fun segs =>
            (Except.ok () : Except PyErr Unit) >>= fun _ =>
              pure ((gain_stage cfg_none.bg_intro_volume (head_excerpt music) :: segs
                ++ [gain_stage cfg_none.bg_outro_volume (tail_excerpt music)]).flatten)) =
      (assemble_loop cfg_none ([seg_a, seg_b, seg_c] : List SegFile).length 0 [seg_a, seg_b, seg_c] >>=
        fun segs =>
          pure ((gain_stage cfg_none.bg_intro_volume (head_excerpt music_20s) :: segs
            ++ [gain_stage cfg_none.bg_outro_volume (tail_excerpt music_20s)]).flatten)) := by
  rw [except_bind_ok, except_bind_ok]
  exact congrArg _ (funext fun segs => except_bind_ok () _)

theorem scenario_after_binds :
    assemble_body cfg_none (.ok music_20s) (.fromList [seg_a, seg_b, seg_c]) [] (.ok ()) =
      (assemble_loop cfg_none ([seg_a, seg_b, seg_c] : List SegFile).length 0 [seg_a, seg_b, seg_c] >>=
        fun segs =>
          pure ((gain_stage cfg_none.bg_intro_volume (head_excerpt music_20s) :: segs
            ++ [gain_stage cfg_none.bg_outro_volume (tail_excerpt music_20s)]).flatten)) :=
  scenario_body_resolved.trans scenario_bind_step

theorem scenario_after_loop :
    assemble_body cfg_none (.ok music_20s) (.fromList [seg_a, seg_b, seg_c]) [] (.ok ()) =
      pure ((gain_stage cfg_none.bg_intro_volume (head_excerpt music_20s) ::
        [one_sec_zeros, create_silence 1.5, one_sec_zeros, create_silence 0.7, one_sec_zeros]
          ++ [gain_stage cfg_none.bg_outro_volume (tail_excerpt music_20s)]).flatten) := by
  rw [scenario_after_binds, show ([seg_a, seg_b, seg_c] : List SegFile).length = 3 from rfl, scenario_loop]
  simp only [except_bind_ok]

theorem scenario_gains_removed :
    assemble_body cfg_none (.ok music_20s) (.fromList [seg_a, seg_b, seg_c]) [] (.ok ()) =
      pure ((head_excerpt music_20s ::
        [one_sec_zeros, create_silence 1.5, one_sec_zeros, create_silence 0.7, one_sec_zeros]
          ++ [tail_excerpt music_20s]).flatten) := by
  rw [scenario_after_loop, show cfg_none.bg_intro_volume = none from rfl, show cfg_none.bg_outro_volume = none from rfl,
    show (gain_stage none (head_excerpt music_20s) : List ℝ) = head_excerpt music_20s from rfl,
    show (gain_stage none (tail_excerpt music_20s) : List ℝ) = tail_excerpt music_20s from rfl]

theorem except_pure_eq_ok {ε α : Type} (a : α) : (pure a : Except ε α) = Except.ok a := rfl

theorem scenario_flatten :
    ((head_excerpt music_20s ::
      [one_sec_zeros, create_silence 1.5, one_sec_zeros, create_silence 0.7, one_sec_zeros]
        ++ [tail_excerpt music_20s]) : List (List ℝ)).flatten =
      head_excerpt music_20s ++ (one_sec_zeros ++ (create_silence 1.5 ++ (one_sec_zeros ++
        (create_silence 0.7 ++ (one_sec_zeros ++ (tail_excerpt music_20s ++ ([] : List ℝ))))))) := by
  simp only [List.cons_append, List.nil_append, List.flatten_cons, List.flatten_nil]

theorem scenario_body :
    assemble_body cfg_none (.ok music_20s) (.fromList [seg_a, seg_b, seg_c]) [] (.ok ()) =
      .ok (head_excerpt music_20s ++ (one_sec_zeros ++ (create_silence 1.5 ++ (one_sec_zeros ++
        (create_silence 0.7 ++ (one_sec_zeros ++ (tail_excerpt music_20s ++ ([] : List ℝ)))))))) := by
  rw [scenario_gains_removed, scenario_flatten, except_pure_eq_ok]

theorem one_sec_zeros_length : one_sec_zeros.length = 24000 := by
  unfold one_sec_zeros
  rw [List.length_replicate, sample_rate]

theorem music_20s_length : music_20s.length = 480000 := by
  unfold music_20s
  rw [List.length_replicate, sample_rate]

theorem head_excerpt_20s_length : (head_excerpt music_20s).length = 360000 := by
  unfold head_excerpt
  rw [show samples_15s = 360000 from by norm_num [samples_15s, sample_rate], music_20s_length,
    if_pos (by omega), List.length_take, music_20s_length]
  omega

theorem tail_excerpt_20s_length : (tail_excerpt music_20s).length = 360000 := by
  unfold tail_excerpt
  rw [show samples_15s = 360000 from by norm_num [samples_15s, sample_rate], music_20s_length,
    if_pos (by omega), List.length_drop, music_20s_length]

/-- Claim C1: the spec's concrete scenario — segments `a_topic.wav`,
`b_speaker.wav`, `c.wav` of one second each at 24000 Hz, no gains, a 20-second
music asset — yields exactly `35.2 * 24000 = 844800` output samples laid out
as head excerpt, faded first segment, 1.5 s silence, middle segment, 0.7 s
silence, faded last segment, tail excerpt. -/
theorem assemble_concrete_scenario :
    ∃ fa fc : List ℝ,
      fade_in one_sec_zeros = .ok fa ∧
      fade_out one_sec_zeros = .ok fc ∧
      assemble cfg_none (.ok music_20s) (.fromList [seg_a, seg_b, seg_c]) [] (.ok ()) =
        .ok (head_excerpt music_20s ++ fa ++ create_silence 1.5 ++ one_sec_zeros
          ++ create_silence 0.7 ++ fc ++ tail_excerpt music_20s) ∧
      (head_excerpt music_20s ++ fa ++ create_silence 1.5 ++ one_sec_zeros
          ++ create_silence 0.7 ++ fc ++ tail_excerpt music_20s).length = 844800 := by
  refine ⟨one_sec_zeros, one_sec_zeros, fade_in_one_sec, fade_out_one_sec, ?_, ?_⟩
  · rw [assemble_of_body_ok scenario_body]
    simp only [List.append_assoc, List.append_nil]
  · simp only [List.length_append, head_excerpt_20s_length, tail_excerpt_20s_length,
      one_sec_zeros_length, create_silence_topic, create_silence_speaker, List.length_replicate]

/-- Claim C2: after every non-final segment the loop inserts an all-zero
buffer of exactly `round(duration_seconds * 24000)` samples, the duration
selected by the `_topic` / `_speaker` / plain name rule, and inserts nothing
after the final segment regardless of its name. -/
theorem silence_after_segments (cfg : AudioCfg) (n i : ℕ) (f : SegFile)
    (rest : List SegFile) (a : List ℝ) (t : List (List ℝ))
    (ha : process_segment cfg i n f = .ok a)
    (ht : assemble_loop cfg n (i + 1) rest = .ok t) :
    assemble_loop cfg n i (f :: rest) =
      .ok (a :: (if i = n - 1 then t
        else List.replicate (spec_silence_len f.name) (0 : ℝ) :: t)) := by
  rw [loop_step cfg n i f rest a t ha ht, silence_spec_refines]

/-- Claim C2, witness: a non-final `_speaker` segment at index 1 of 3 is
followed by a 16800-sample zero buffer. -/
theorem silence_after_segments_witness :
    assemble_loop cfg_none 3 1 [wseg] =
      .ok [List.replicate 5 (0 : ℝ), List.replicate 16800 0] := by
  have ha : process_segment cfg_none 1 3 wseg = .ok (List.replicate 5 0) := by
    show (Except.ok (List.replicate 5 (0 : ℝ)) >>= fun audio =>
      fade_stage 1 3 (gain_stage cfg_none.vocal_volume audio)) = .ok (List.replicate 5 0)
    rw [except_bind_ok]
    show fade_stage 1 3 (List.replicate 5 0) = .ok (List.replicate 5 0)
    unfold fade_stage
    rw [if_neg (by omega), if_neg (by omega)]
  have hsp : spec_silence_len wseg.name = 16800 := by
    show spec_silence_len "b_speaker.wav" = 16800
    unfold spec_silence_len
    simp only [strContains_b_topic, strContains_b_speaker, Bool.false_eq_true, if_false, if_true]
    norm_num
    rfl
  have h := silence_after_segments cfg_none 3 1 wseg [] _ _ ha (assemble_loop_nil cfg_none 3 2)
  rw [if_neg (by omega), hsp] at h
  exact h

end
